import Mathlib

/-!
# Verification of the price-triggered purchase workflow (`src/shopify-agent.js`)

Shallow embedding of the two classes in `src/shopify-agent.js`:

* `ShopifyAgent` — `purchaseProduct` / `pollTaskStatus`: creation of a
  payment-gated purchase task and the polling loop over its status endpoint;
* `PriceMonitor` — `startMonitoring` / `startPolling` / `checkSessions` /
  `stopSession`: the registry of active price-watch sessions and the
  periodic tick that checks each session against the external price feed.

Network transports are modelled as explicit response values handed to the
embedded functions (the response a given HTTP call would have produced);
side effects (notifications sent, purchases dispatched, status queries made)
are returned as logs.  Wall-clock sleeps (`setTimeout`, `setInterval`
periods) are abstracted away: a "tick" / "attempt" is one execution of the
corresponding loop body.
-/

namespace FlipAgent

/-- Scan `pat.isPrefixOf` along the list: JavaScript `String.includes`
on the underlying character lists. -/
def charsContain (pat : List Char) : List Char → Bool
  | [] => pat.isEmpty
  | c :: cs => pat.isPrefixOf (c :: cs) || charsContain pat cs

/-- JavaScript `s.includes(pat)`. -/
def strIncludes (s pat : String) : Bool :=
  charsContain pat.data s.data

/-- JavaScript `s.toLowerCase()`, character-wise (sufficient for the ASCII
keywords the code matches on). -/
def strToLower (s : String) : String :=
  ⟨s.data.map Char.toLower⟩

/-- JavaScript truthiness of a possibly-absent string: `undefined` and the
empty string are falsy. -/
def jsTruthy : Option String → Bool
  | none => false
  | some s => !(s == "")

/-- JavaScript `a || b` on possibly-absent strings. -/
def jsOrStr (a b : Option String) : Option String :=
  if jsTruthy a then a else b

/-! ## ShopifyAgent: task-status polling (`pollTaskStatus`, lines 86–144) -/

/-- One entry of the `result_data.progress` array returned by the task
service (`{message, timestamp}`; only `message` is ever read). -/
structure ProgressStep where
  message : String
  deriving DecidableEq

/-- The `result_data` object of a status response. -/
structure ResultData where
  progress : Option (List ProgressStep)
  order_details : Option String
  deriving DecidableEq

/-- Body of a task-status response (`GET /tasks/{taskId}`). -/
structure StatusData where
  current_status : Option String
  status : Option String
  result_data : Option ResultData
  error_message : Option String
  deriving DecidableEq

/-- Result of one `axios.get(statusUrl)` call: a parsed body, or a thrown
transport error carrying its message. -/
inductive AxiosResult where
  | ok (data : StatusData)
  | netErr (msg : String)
  deriving DecidableEq

/-- JavaScript `data.current_status || data.status` (line 99). -/
def effStatus (d : StatusData) : Option String :=
  jsOrStr d.current_status d.status

/-- JavaScript `data.error_message || 'Task failed'` (line 133). -/
def errMsgOf (d : StatusData) : String :=
  match jsOrStr d.error_message (some "Task failed") with
  | some s => s
  | none => "Task failed"

/-- The `catch` guard of the polling loop (line 138): rethrow only when the
message is `'Task failed'` or contains `'Task failed'`. -/
def rethrowGuard (m : String) : Bool :=
  m == "Task failed" || strIncludes m "Task failed"

/-- Notifications produced by the `newSteps.forEach` body (lines 108–120):
sent only when a `userHandle` is present; keyword rules checked on the
lowercased message, first match wins. -/
def stepNotifs (userHandle : Option String) (steps : List ProgressStep) : List String :=
  match userHandle with
  | none => []
  | some _ =>
    steps.foldr (fun step acc =>
      (let m := strToLower step.message
       if strIncludes m "adding" && strIncludes m "cart" then
         ["Found the item! Adding it to cart..."]
       else if strIncludes m "checkout" then
         ["Heading to checkout now..."]
       else if strIncludes m "submitting" then
         ["Almost there, submitting the order..."]
       else []) ++ acc) []

/-- Model of `JSON.stringify(data.result_data?.order_details || 'Check email
for confirmation.')` inside the success notification (line 129); the
stringified value is quote-wrapped (escaping is not modelled). -/
def orderDetailsText (d : StatusData) : String :=
  match d.result_data with
  | none => "\"Check email for confirmation.\""
  | some rd =>
    match jsOrStr rd.order_details (some "Check email for confirmation.") with
    | some s => "\"" ++ s ++ "\""
    | none => "\"Check email for confirmation.\""

/-- The success notification (line 129), sent only with a `userHandle`. -/
def successNotif (userHandle : Option String) (d : StatusData) : List String :=
  match userHandle with
  | none => []
  | some _ => ["Success! Order placed. " ++ orderDetailsText d]

/-- Observable effects of one polling attempt: the `message`s of the
`newSteps` slice surfaced on this attempt (in order), and the update texts
sent to the user on this attempt. -/
structure AttemptLog where
  surfaced : List String
  notifs : List String
  deriving DecidableEq

/-- Whether the loop body ends the loop on this attempt, and how. -/
inductive PollOutcome where
  | success (data : StatusData)
  | thrown (msg : String)
  | timeout
  deriving DecidableEq

/-- Result of one loop body run: effects, whether the loop ends here, and
the updated `lastProgressCount`. -/
inductive IterResult where
  | done (o : PollOutcome)
  | next
  deriving DecidableEq

/-- One iteration of the `for` loop of `pollTaskStatus` (lines 93–141),
given the result of this attempt's `axios.get` and the current
`lastProgressCount`.  A thrown transport error skips the body and reaches
the `catch`; a `'failed'`/`'error'` status throws `error_message || 'Task
failed'`, which that same `catch` rethrows only when `rethrowGuard` holds
(otherwise it is treated as a polling warning and the loop continues). -/
def pollIteration (userHandle : Option String) (r : AxiosResult) (lastProgressCount : Nat) :
    AttemptLog × IterResult × Nat :=
  match r with
  | .netErr m =>
    if rethrowGuard m then (⟨[], []⟩, .done (.thrown m), lastProgressCount)
    else (⟨[], []⟩, .next, lastProgressCount)
  | .ok d =>
    let status := effStatus d
    let progressPart : List ProgressStep × Nat :=
      match d.result_data with
      | some rd =>
        match rd.progress with
        | some steps =>
          if steps.length > lastProgressCount then
            (steps.drop lastProgressCount, steps.length)
          else ([], lastProgressCount)
        | none => ([], lastProgressCount)
      | none => ([], lastProgressCount)
    let newSteps := progressPart.1
    let lpc := progressPart.2
    let surfaced := newSteps.map ProgressStep.message
    let notifs := stepNotifs userHandle newSteps
    if status == some "completed" || status == some "success" then
      (⟨surfaced, notifs ++ successNotif userHandle d⟩, .done (.success d), lpc)
    else if status == some "failed" || status == some "error" then
      if rethrowGuard (errMsgOf d) then
        (⟨surfaced, notifs⟩, .done (.thrown (errMsgOf d)), lpc)
      else
        (⟨surfaced, notifs⟩, .next, lpc)
    else
      (⟨surfaced, notifs⟩, .next, lpc)

/-- The polling loop from attempt `i` with `fuel` attempts remaining:
returns one `AttemptLog` per attempt actually performed (each attempt makes
exactly one status request) and the outcome. -/
def pollGo (userHandle : Option String) (responses : Nat → AxiosResult) :
    Nat → Nat → Nat → List AttemptLog × PollOutcome
  | _, 0, _ => ([], .timeout)
  | i, fuel + 1, lastProgressCount =>
    let step := pollIteration userHandle (responses i) lastProgressCount
    match step.2.1 with
    | .done o => ([step.1], o)
    | .next =>
      let rest := pollGo userHandle responses (i + 1) fuel step.2.2
      (step.1 :: rest.1, rest.2)

/-- The attempt budget `maxAttempts = 120` (line 90). -/
def maxAttempts : Nat := 120

/-- Embedding of `ShopifyAgent.pollTaskStatus` (lines 86–144): run up to `maxAttempts`
attempts starting with `lastProgressCount = 0`; exhausting the budget
throws `'Task timed out'` (modelled as `PollOutcome.timeout`). -/
def pollTaskStatus (userHandle : Option String) (responses : Nat → AxiosResult) :
    List AttemptLog × PollOutcome :=
  pollGo userHandle responses 0 maxAttempts 0

/-! ## ShopifyAgent.purchaseProduct (lines 29–84) -/

/-- Result of the task-creation call (`fetchWithPayment` POST, lines 49–65):
the wrapped fetch threw, the response was not ok (status + body text), or a
parsed body whose `task_id` may be absent. -/
inductive CreateResult where
  | netThrow (msg : String)
  | httpFail (statusCode : Nat) (body : String)
  | okBody (task_id : Option String)
  deriving DecidableEq

/-- What `purchaseProduct` does for its caller: resolves with the final
status payload, or rejects with the message of the propagated error. -/
inductive PurchaseOutcome where
  | ok (data : StatusData)
  | err (msg : String)
  deriving DecidableEq

/-- The "started" update (line 71), sent only with a `userHandle`. -/
def startUpdate (userHandle : Option String) : List String :=
  match userHandle with
  | none => []
  | some _ => ["Payment confirmed! I've started the purchase process for you."]

/-- The failure update sent by the outer `catch` (line 80) before the error
is rethrown, only with a `userHandle`. -/
def failUpdate (userHandle : Option String) (m : String) : List String :=
  match userHandle with
  | none => []
  | some _ => ["Purchase failed: " ++ m]

/-- Embedding of `ShopifyAgent.purchaseProduct` (lines 29–84).  `privateKey` is the
`WALLET_PRIVATE_KEY` configuration (`getAccount` throws when absent, before
any network call); `create` is the task-creation response; `responses` are
the bodies of the successive status polls.  Returns the outcome, the log of
polling attempts actually performed, and the purchase-level updates sent to
the user (in order).  Every error reaching the outer `catch` is rethrown to
the caller after the best-effort failure update. -/
def purchaseProduct (privateKey : Option String) (create : CreateResult)
    (responses : Nat → AxiosResult) (userHandle : Option String) :
    PurchaseOutcome × List AttemptLog × List String :=
  match privateKey with
  | none =>
    let m := "WALLET_PRIVATE_KEY not found in environment variables"
    (.err m, [], failUpdate userHandle m)
  | some _ =>
    match create with
    | .netThrow m => (.err m, [], failUpdate userHandle m)
    | .httpFail statusCode body =>
      let m := "Payment/Task failed: " ++ toString statusCode ++ " " ++ body
      (.err m, [], failUpdate userHandle m)
    | .okBody none =>
      let m := "No task_id returned from service"
      (.err m, [], failUpdate userHandle m)
    | .okBody (some _) =>
      let poll := pollTaskStatus userHandle responses
      match poll.2 with
      | .success d => (.ok d, poll.1, startUpdate userHandle)
      | .thrown m => (.err m, poll.1, startUpdate userHandle ++ failUpdate userHandle m)
      | .timeout =>
        (.err "Task timed out", poll.1,
          startUpdate userHandle ++ failUpdate userHandle "Task timed out")

/-! ## PriceMonitor (lines 170–316) -/

/-- A JavaScript number, separating the finite values (modelled as integers)
from `NaN` and the infinities, so that finiteness-dependent behaviour can be
stated. -/
inductive JSNumber where
  | num (v : Int)
  | nan
  | inf
  | negInf
  deriving DecidableEq

/-- JavaScript `Number.isFinite`. -/
def JSNumber.isFinite : JSNumber → Bool
  | .num _ => true
  | _ => false

/-- JavaScript string conversion of a number (template-literal
interpolation). -/
def JSNumber.toText : JSNumber → String
  | .num v => toString v
  | .nan => "NaN"
  | .inf => "Infinity"
  | .negInf => "-Infinity"

/-- The per-session record stored in `activeSessions` (lines 199–206);
`startTime` is not modelled (never read). -/
structure SessionData where
  userHandle : String
  productUrl : String
  size : String
  symbol : String
  threshold : JSNumber
  deriving DecidableEq

/-- The `response.data.data` object of a monitor-status query (lines 250–251). -/
structure FeedSessionData where
  symbol : String
  price : Int
  threshold : Int
  is_below_threshold : Bool
  deriving DecidableEq

/-- Result of one `axios.get` on `/api/monitor/{sessionId}`: a 2xx response
whose `data` field may be absent, or a thrown error whose
`error.response.status` may be absent (pure network failure). -/
inductive FeedResult where
  | ok (data : Option FeedSessionData)
  | httpError (respStatus : Option Nat)
  deriving DecidableEq

/-- The `activeSessions` map: association list in insertion order with
pairwise-distinct keys (JavaScript `Map`). -/
abbrev SessionMap := List (String × SessionData)

/-- JavaScript `Map.delete`. -/
def mapDelete (m : SessionMap) (k : String) : SessionMap :=
  m.filter (fun e => e.1 != k)

/-- JavaScript `Map.set`: replace in place when the key exists, append otherwise. -/
def mapSet (m : SessionMap) (k : String) (v : SessionData) : SessionMap :=
  if m.any (fun e => e.1 == k) then
    m.map (fun e => if e.1 == k then (k, v) else e)
  else m ++ [(k, v)]

/-- The price-alert notification text (line 264). -/
def priceAlertMsg (d : SessionData) (sd : FeedSessionData) : String :=
  "🚨 PRICE ALERT: " ++ d.symbol ++ " is now $" ++ toString sd.price ++
    " (below your limit of $" ++ d.threshold.toText ++ "). Initiating purchase of your item!"

/-- Embedding of `PriceMonitor.stopSession` (lines 289–299): POST the upstream stop and
delete the session locally; the `catch` also deletes, so the local removal
happens whether or not the upstream call succeeds (`stopOk`). -/
def stopSessionLocal (stopOk : Bool) (sessions : SessionMap) (sid : String) : SessionMap :=
  match stopOk with
  | true => mapDelete sessions sid
  | false => mapDelete sessions sid

/-- One `sendNotification` call attributed to the session being processed
(the `sessionId` field is observation bookkeeping; the code passes only
`handle` and `message`). -/
structure NotifCall where
  sessionId : String
  handle : String
  message : String
  deriving DecidableEq

/-- One fire-and-forget `shopifyAgent.purchaseProduct` dispatch attributed
to the session being processed. -/
structure PurchaseCall where
  sessionId : String
  productUrl : String
  size : String
  userHandle : String
  deriving DecidableEq

/-- Observable effects of one `checkSessions` tick: which sessions were
status-queried, the notifications sent, and the purchases dispatched. -/
structure TickLog where
  queries : List String
  notifs : List NotifCall
  purchases : List PurchaseCall
  deriving DecidableEq

/-- The body of the `for` loop of `checkSessions` for one session entry
(lines 247–286), given this session's feed response and whether the
upstream stop call would succeed.  Returns the updated map and this entry's
notifications and purchase dispatches.  A missing `data` object logs a
warning and continues; a thrown error deletes the session only on a 404
response; purchase failure is caught by `.catch` and never affects the
registry. -/
def checkEntry (r : FeedResult) (stopOk : Bool) (sessions : SessionMap)
    (sid : String) (d : SessionData) :
    SessionMap × List NotifCall × List PurchaseCall :=
  match r with
  | .ok none => (sessions, [], [])
  | .ok (some sd) =>
    if sd.is_below_threshold then
      (stopSessionLocal stopOk sessions sid,
        [⟨sid, d.userHandle, priceAlertMsg d sd⟩],
        [⟨sid, d.productUrl, d.size, d.userHandle⟩])
    else (sessions, [], [])
  | .httpError respStatus =>
    if respStatus = some 404 then (mapDelete sessions sid, [], [])
    else (sessions, [], [])

/-- Run the loop of `checkSessions` over the entry snapshot taken at tick
start, threading the live map (only the entry being processed is ever
deleted, so iterating the snapshot coincides with iterating the live
`Map`). -/
def runEntries (feed : String → FeedResult) (stopOks : String → Bool) :
    List (String × SessionData) → SessionMap → SessionMap × TickLog
  | [], sessions => (sessions, ⟨[], [], []⟩)
  | (sid, d) :: rest, sessions =>
    let step := checkEntry (feed sid) (stopOks sid) sessions sid d
    let tail := runEntries feed stopOks rest step.1
    (tail.1, ⟨sid :: tail.2.queries, step.2.1 ++ tail.2.notifs, step.2.2 ++ tail.2.purchases⟩)

/-- The monitor's mutable state: the session registry, the `isPolling`
flag, and a count of `setInterval` timers created so far (observation
bookkeeping for the scheduling primitive of lines 225–227). -/
structure MonitorState where
  activeSessions : SessionMap
  isPolling : Bool
  timersCreated : Nat
  deriving DecidableEq

/-- Embedding of `PriceMonitor.startPolling` (lines 219–228): a no-op when `isPolling`
is already set; otherwise sets the flag and creates one interval timer. -/
def startPolling (st : MonitorState) : MonitorState :=
  if st.isPolling then st
  else { st with isPolling := true, timersCreated := st.timersCreated + 1 }

/-- Embedding of `PriceMonitor.checkSessions` (lines 239–287): early return on an empty
registry, otherwise process every registered session in order.  `feed sid`
is the status response for session `sid` this tick; `stopOks sid` is
whether the upstream stop call would succeed for `sid`. -/
def checkSessions (feed : String → FeedResult) (stopOks : String → Bool)
    (st : MonitorState) : MonitorState × TickLog :=
  if st.activeSessions.isEmpty then (st, ⟨[], [], []⟩)
  else
    let r := runEntries feed stopOks st.activeSessions st.activeSessions
    ({ st with activeSessions := r.1 }, r.2)

/-- Result of the `POST /api/monitor/start` registration call (lines
186–190): a thrown error, or a parsed body whose `session_id` may be
absent. -/
inductive RegResult where
  | err (msg : String)
  | ok (session_id : Option String)
  deriving DecidableEq

/-- Embedding of `PriceMonitor.startMonitoring` (lines 181–217), given the registration
response the POST would produce.  Returns whether the registration request
was sent, the new state, and the result (`session_id` on success, the
rethrown error message on failure).  The request is sent unconditionally —
the code performs no finiteness check on `threshold`; on success the
session is stored and `startPolling` is invoked. -/
def startMonitoring (st : MonitorState) (symbol : String) (threshold : JSNumber)
    (userHandle productUrl size : String) (reg : RegResult) :
    Bool × MonitorState × Except String String :=
  match reg with
  | .err m => (true, st, .error m)
  | .ok none => (true, st, .error "Failed to get session_id from monitoring API")
  | .ok (some sid) =>
    let st' := { st with
      activeSessions := mapSet st.activeSessions sid
        ⟨userHandle, productUrl, size, symbol, threshold⟩ }
    (true, startPolling st', .ok sid)

/-- The registry state after `n` ticks of the polling loop, with `feeds t`
the feed responses of tick `t` and `stopOks t` the stop-call outcomes of
tick `t`. -/
def stateAfter (feeds : Nat → String → FeedResult) (stopOks : Nat → String → Bool)
    (st : MonitorState) : Nat → MonitorState
  | 0 => st
  | n + 1 => (checkSessions (feeds n) (stopOks n) (stateAfter feeds stopOks st n)).1

/-- The effects of tick `n` of the polling loop. -/
def logAt (feeds : Nat → String → FeedResult) (stopOks : Nat → String → Bool)
    (st : MonitorState) (n : Nat) : TickLog :=
  (checkSessions (feeds n) (stopOks n) (stateAfter feeds stopOks st n)).2

/-- The notifications of a tick attributed to session `sid`. -/
def notifsFor (sid : String) (l : List NotifCall) : List NotifCall :=
  l.filter (fun n => n.sessionId == sid)

/-- The purchase dispatches of a tick attributed to session `sid`. -/
def purchasesFor (sid : String) (l : List PurchaseCall) : List PurchaseCall :=
  l.filter (fun p => p.sessionId == sid)

/-- The keys of the session map. -/
def keysOf (m : SessionMap) : List String := m.map Prod.fst

/-! ## Derived predicates and per-entry effect summaries -/

/-- A status response that ends no iteration of `pollTaskStatus`: its
effective status is none of the four terminal strings, and a transport
error does not carry a message matching the rethrow guard. -/
def nonTerminalResp : AxiosResult → Prop
  | .ok d =>
    effStatus d ≠ some "completed" ∧ effStatus d ≠ some "success" ∧
      effStatus d ≠ some "failed" ∧ effStatus d ≠ some "error"
  | .netErr m => rethrowGuard m = false

/-- A feed response on which `checkEntry` leaves the session registered:
no data object, a price not below threshold, or a non-404 failure. -/
def keepsSession : FeedResult → Prop
  | .ok none => True
  | .ok (some sd) => sd.is_below_threshold = false
  | .httpError respStatus => respStatus ≠ some 404

/-- A feed response on which `checkEntry` deletes the session from the
registry: a reported crossing, or a 404 failure. -/
def removesSession : FeedResult → Prop
  | .ok none => False
  | .ok (some sd) => sd.is_below_threshold = true
  | .httpError respStatus => respStatus = some 404

/-- The notifications `checkEntry` attributes to its session, as a function
of the feed response alone (they do not depend on the threaded map). -/
def entryNotifs (r : FeedResult) (sid : String) (d : SessionData) : List NotifCall :=
  match r with
  | .ok (some sd) =>
    if sd.is_below_threshold then [⟨sid, d.userHandle, priceAlertMsg d sd⟩] else []
  | _ => []

/-- The purchase dispatches `checkEntry` attributes to its session. -/
def entryPurchases (r : FeedResult) (sid : String) (d : SessionData) : List PurchaseCall :=
  match r with
  | .ok (some sd) =>
    if sd.is_below_threshold then [⟨sid, d.productUrl, d.size, d.userHandle⟩] else []
  | _ => []

/-! ## Concrete instances used by the closed theorems and witnesses -/

/-- A status body that is still in flight: `processing`, empty progress. -/
def pendingStatus : StatusData := ⟨some "processing", none, some ⟨some [], none⟩, none⟩

/-- Status polls that never reach a terminal state. -/
def respPending : Nat → AxiosResult := fun _ => .ok pendingStatus

/-- First poll: terminal `failed` status with a populated upstream
`error_message` and a non-empty progress list; later polls pending. -/
def respFailedWithMsg : Nat → AxiosResult := fun i =>
  if i = 0 then
    .ok ⟨some "failed", none, some ⟨some [⟨"Checking stock"⟩], none⟩, some "Variant not found"⟩
  else .ok pendingStatus

/-- Every poll: terminal `failed` status with no `error_message`. -/
def respFailedNoMsg : Nat → AxiosResult := fun _ =>
  .ok ⟨some "failed", none, none, none⟩

/-- Poll sequence for the progress-growth scenario: `[]`, `[stepA]`,
`[stepA, stepB]`, then `completed`. -/
def respProgressGrowth : Nat → AxiosResult := fun i =>
  if i = 0 then .ok ⟨some "processing", none, some ⟨some [], none⟩, none⟩
  else if i = 1 then
    .ok ⟨some "processing", none, some ⟨some [⟨"Adding item to cart"⟩], none⟩, none⟩
  else if i = 2 then
    .ok ⟨some "processing", none,
      some ⟨some [⟨"Adding item to cart"⟩, ⟨"Proceeding to checkout"⟩], none⟩, none⟩
  else
    .ok ⟨some "completed", none,
      some ⟨some [⟨"Adding item to cart"⟩, ⟨"Proceeding to checkout"⟩], none⟩, none⟩

/-- The end-to-end example session of the spec. -/
def sessJacket : SessionData :=
  ⟨"+15551234567", "https://shop.example/jacket", "Medium", "ETH/USD", JSNumber.num 2500⟩

/-- A registry holding exactly `sessJacket` under id `"s1"`, loop running. -/
def stOne : MonitorState := ⟨[("s1", sessJacket)], true, 1⟩

/-- A feed status reporting the crossing (`2400 < 2500`). -/
def sdBelow : FeedSessionData := ⟨"ETH/USD", 2400, 2500, true⟩

/-- A feed that reports the crossing on every tick for every session. -/
def feedsAlwaysBelow : Nat → String → FeedResult := fun _ _ => .ok (some sdBelow)

/-- Upstream stop calls that always fail. -/
def stopsAlwaysFail : Nat → String → Bool := fun _ _ => false

/-- A feed answering 404 for every session. -/
def feed404 : String → FeedResult := fun _ => .httpError (some 404)

/-- A feed failing with HTTP 500 for every session. -/
def feed500 : String → FeedResult := fun _ => .httpError (some 500)

/-- A feed whose responses carry no `data` object. -/
def feedNoData : String → FeedResult := fun _ => .ok none

/-- An empty monitor state (fresh `PriceMonitor`). -/
def stEmpty : MonitorState := ⟨[], false, 0⟩

end FlipAgent

namespace FlipAgent

/-! ## Polling-loop lemmas -/

theorem pollIteration_next (u : Option String) (r : AxiosResult) (lpc : Nat)
    (h : nonTerminalResp r) : (pollIteration u r lpc).2.1 = IterResult.next := by
  cases r with
  | netErr m =>
    simp only [nonTerminalResp] at h
    simp [pollIteration, h]
  | ok d =>
    obtain ⟨h1, h2, h3, h4⟩ := h
    have e1 : (effStatus d == some "completed") = false := beq_eq_false_iff_ne.mpr h1
    have e2 : (effStatus d == some "success") = false := beq_eq_false_iff_ne.mpr h2
    have e3 : (effStatus d == some "failed") = false := beq_eq_false_iff_ne.mpr h3
    have e4 : (effStatus d == some "error") = false := beq_eq_false_iff_ne.mpr h4
    simp [pollIteration, e1, e2, e3, e4]

theorem pollGo_all_nonterminal (u : Option String) (responses : Nat → AxiosResult)
    (h : ∀ i, nonTerminalResp (responses i)) :
    ∀ fuel i lpc, (pollGo u responses i fuel lpc).1.length = fuel ∧
      (pollGo u responses i fuel lpc).2 = PollOutcome.timeout := by
  intro fuel
  induction fuel with
  | zero => intro i lpc; simp [pollGo]
  | succ n ih =>
    intro i lpc
    have hnext := pollIteration_next u (responses i) lpc (h i)
    obtain ⟨l1, l2⟩ := ih (i + 1) (pollIteration u (responses i) lpc).2.2
    simp only [pollGo, hnext, List.length_cons]
    exact ⟨by rw [l1], l2⟩

end FlipAgent

namespace FlipAgent

/-! ## Session-map and per-entry lemmas -/

theorem stopSessionLocal_eq (b : Bool) (s : SessionMap) (sid : String) :
    stopSessionLocal b s sid = mapDelete s sid := by
  cases b <;> rfl

theorem mapDelete_sublist (s : SessionMap) (k : String) : List.Sublist (mapDelete s k) s :=
  List.filter_sublist s

theorem mem_mapDelete_of_ne {s : SessionMap} {k : String} {e : String × SessionData}
    (he : e ∈ s) (hne : e.1 ≠ k) : e ∈ mapDelete s k := by
  refine List.mem_filter.mpr ⟨he, ?_⟩
  simpa using hne

theorem not_mem_keysOf_mapDelete (s : SessionMap) (k : String) :
    k ∉ keysOf (mapDelete s k) := by
  intro h
  obtain ⟨e, he, hk⟩ := List.mem_map.mp h
  have h2 := (List.mem_filter.mp he).2
  rw [hk] at h2
  simp at h2

theorem keysOf_sublist_of_sublist {s t : SessionMap} (h : List.Sublist t s) :
    List.Sublist (keysOf t) (keysOf s) :=
  h.map Prod.fst

theorem checkEntry_sessions_sublist (r : FeedResult) (b : Bool) (s : SessionMap)
    (sid : String) (d : SessionData) : List.Sublist (checkEntry r b s sid d).1 s := by
  cases r with
  | ok o =>
    cases o with
    | none => exact List.Sublist.refl s
    | some sd =>
      simp only [checkEntry]
      split
      · rw [stopSessionLocal_eq]; exact mapDelete_sublist s sid
      · exact List.Sublist.refl s
  | httpError rs =>
    simp only [checkEntry]
    split
    · exact mapDelete_sublist s sid
    · exact List.Sublist.refl s

theorem checkEntry_notifs (r : FeedResult) (b : Bool) (s : SessionMap)
    (sid : String) (d : SessionData) :
    (checkEntry r b s sid d).2.1 = entryNotifs r sid d := by
  cases r with
  | ok o =>
    cases o with
    | none => rfl
    | some sd =>
      simp only [checkEntry, entryNotifs]
      split <;> rfl
  | httpError rs =>
    simp only [checkEntry, entryNotifs]
    split <;> rfl

theorem checkEntry_purchases (r : FeedResult) (b : Bool) (s : SessionMap)
    (sid : String) (d : SessionData) :
    (checkEntry r b s sid d).2.2 = entryPurchases r sid d := by
  cases r with
  | ok o =>
    cases o with
    | none => rfl
    | some sd =>
      simp only [checkEntry, entryPurchases]
      split <;> rfl
  | httpError rs =>
    simp only [checkEntry, entryPurchases]
    split <;> rfl

theorem checkEntry_keeps (r : FeedResult) (b : Bool) (s : SessionMap)
    (sid : String) (d : SessionData) (h : keepsSession r) :
    (checkEntry r b s sid d).1 = s := by
  cases r with
  | ok o =>
    cases o with
    | none => rfl
    | some sd =>
      simp only [keepsSession] at h
      simp [checkEntry, h]
  | httpError rs =>
    simp only [keepsSession] at h
    simp [checkEntry, h]

theorem checkEntry_removes (r : FeedResult) (b : Bool) (s : SessionMap)
    (sid : String) (d : SessionData) (h : removesSession r) :
    (checkEntry r b s sid d).1 = mapDelete s sid := by
  cases r with
  | ok o =>
    cases o with
    | none => exact absurd h (by simp [removesSession])
    | some sd =>
      simp only [removesSession] at h
      simp [checkEntry, h, stopSessionLocal_eq]
  | httpError rs =>
    simp only [removesSession] at h
    simp [checkEntry, h]

theorem checkEntry_mem_of_ne (r : FeedResult) (b : Bool) (s : SessionMap)
    (sid : String) (d : SessionData) {e : String × SessionData}
    (he : e ∈ s) (hne : e.1 ≠ sid) : e ∈ (checkEntry r b s sid d).1 := by
  cases r with
  | ok o =>
    cases o with
    | none => exact he
    | some sd =>
      simp only [checkEntry]
      split
      · rw [stopSessionLocal_eq]; exact mem_mapDelete_of_ne he hne
      · exact he
  | httpError rs =>
    simp only [checkEntry]
    split
    · exact mem_mapDelete_of_ne he hne
    · exact he

theorem entryNotifs_key (r : FeedResult) (sid : String) (d : SessionData) :
    ∀ n ∈ entryNotifs r sid d, n.sessionId = sid := by
  intro n hn
  cases r with
  | ok o =>
    cases o with
    | none => simp [entryNotifs] at hn
    | some sd =>
      simp only [entryNotifs] at hn
      split at hn
      · simp at hn; rw [hn]
      · simp at hn
  | httpError rs => simp [entryNotifs] at hn

theorem entryPurchases_key (r : FeedResult) (sid : String) (d : SessionData) :
    ∀ p ∈ entryPurchases r sid d, p.sessionId = sid := by
  intro p hp
  cases r with
  | ok o =>
    cases o with
    | none => simp [entryPurchases] at hp
    | some sd =>
      simp only [entryPurchases] at hp
      split at hp
      · simp at hp; rw [hp]
      · simp at hp
  | httpError rs => simp [entryPurchases] at hp

end FlipAgent

namespace FlipAgent

/-! ## Tick-loop lemmas (`runEntries` / `checkSessions`) -/

theorem notifsFor_entry_ne (r : FeedResult) {sid sid' : String} (d : SessionData)
    (h : sid' ≠ sid) : notifsFor sid (entryNotifs r sid' d) = [] := by
  refine List.filter_eq_nil_iff.mpr (fun n hn => ?_)
  have hk := entryNotifs_key r sid' d n hn
  simp [hk, h]

theorem purchasesFor_entry_ne (r : FeedResult) {sid sid' : String} (d : SessionData)
    (h : sid' ≠ sid) : purchasesFor sid (entryPurchases r sid' d) = [] := by
  refine List.filter_eq_nil_iff.mpr (fun p hp => ?_)
  have hk := entryPurchases_key r sid' d p hp
  simp [hk, h]

theorem notifsFor_entry_self (r : FeedResult) (sid : String) (d : SessionData) :
    notifsFor sid (entryNotifs r sid d) = entryNotifs r sid d := by
  refine List.filter_eq_self.mpr (fun n hn => ?_)
  simp [entryNotifs_key r sid d n hn]

theorem purchasesFor_entry_self (r : FeedResult) (sid : String) (d : SessionData) :
    purchasesFor sid (entryPurchases r sid d) = entryPurchases r sid d := by
  refine List.filter_eq_self.mpr (fun p hp => ?_)
  simp [entryPurchases_key r sid d p hp]

theorem runEntries_cons (f : String → FeedResult) (g : String → Bool)
    (sid : String) (d : SessionData) (rest : List (String × SessionData))
    (s : SessionMap) :
    runEntries f g ((sid, d) :: rest) s =
      ((runEntries f g rest (checkEntry (f sid) (g sid) s sid d).1).1,
        ⟨sid :: (runEntries f g rest (checkEntry (f sid) (g sid) s sid d).1).2.queries,
          (checkEntry (f sid) (g sid) s sid d).2.1 ++
            (runEntries f g rest (checkEntry (f sid) (g sid) s sid d).1).2.notifs,
          (checkEntry (f sid) (g sid) s sid d).2.2 ++
            (runEntries f g rest (checkEntry (f sid) (g sid) s sid d).1).2.purchases⟩) :=
  rfl

theorem runEntries_sessions_sublist (f : String → FeedResult) (g : String → Bool) :
    ∀ (es : List (String × SessionData)) (s : SessionMap),
      List.Sublist (runEntries f g es s).1 s := by
  intro es
  induction es with
  | nil => intro s; exact List.Sublist.refl s
  | cons e rest ih =>
    intro s
    obtain ⟨sid, d⟩ := e
    rw [runEntries_cons]
    exact (ih _).trans (checkEntry_sessions_sublist (f sid) (g sid) s sid d)

theorem runEntries_absent_keys (f : String → FeedResult) (g : String → Bool)
    {sid : String} (es : List (String × SessionData)) (s : SessionMap)
    (h : sid ∉ keysOf s) : sid ∉ keysOf (runEntries f g es s).1 :=
  fun hmem =>
    h ((keysOf_sublist_of_sublist (runEntries_sessions_sublist f g es s)).subset hmem)

theorem runEntries_queries (f : String → FeedResult) (g : String → Bool) :
    ∀ (es : List (String × SessionData)) (s : SessionMap),
      (runEntries f g es s).2.queries = es.map Prod.fst := by
  intro es
  induction es with
  | nil => intro s; rfl
  | cons e rest ih =>
    intro s
    obtain ⟨sid, d⟩ := e
    rw [runEntries_cons, List.map_cons]
    simp only [ih]

theorem runEntries_log_absent (f : String → FeedResult) (g : String → Bool)
    (sid : String) :
    ∀ (es : List (String × SessionData)) (s : SessionMap), sid ∉ es.map Prod.fst →
      notifsFor sid (runEntries f g es s).2.notifs = [] ∧
      purchasesFor sid (runEntries f g es s).2.purchases = [] := by
  intro es
  induction es with
  | nil => intro s _; exact ⟨rfl, rfl⟩
  | cons e rest ih =>
    intro s h
    obtain ⟨sid', d'⟩ := e
    rw [List.map_cons, List.mem_cons] at h
    push_neg at h
    obtain ⟨hne, hrest⟩ := h
    obtain ⟨ihn, ihp⟩ := ih _ hrest
    rw [runEntries_cons]
    constructor
    · rw [checkEntry_notifs]
      show notifsFor sid (entryNotifs (f sid') sid' d' ++ _) = []
      rw [notifsFor, List.filter_append]
      rw [show (entryNotifs (f sid') sid' d').filter (fun n => n.sessionId == sid) =
            notifsFor sid (entryNotifs (f sid') sid' d') from rfl]
      rw [notifsFor_entry_ne (f sid') d' (Ne.symm hne)]
      simpa [notifsFor] using ihn
    · rw [checkEntry_purchases]
      show purchasesFor sid (entryPurchases (f sid') sid' d' ++ _) = []
      rw [purchasesFor, List.filter_append]
      rw [show (entryPurchases (f sid') sid' d').filter (fun p => p.sessionId == sid) =
            purchasesFor sid (entryPurchases (f sid') sid' d') from rfl]
      rw [purchasesFor_entry_ne (f sid') d' (Ne.symm hne)]
      simpa [purchasesFor] using ihp

theorem runEntries_keeps (f : String → FeedResult) (g : String → Bool)
    {sid : String} {d : SessionData} (hk : keepsSession (f sid)) :
    ∀ (es : List (String × SessionData)) (s : SessionMap),
      (sid, d) ∈ s → (sid, d) ∈ (runEntries f g es s).1 := by
  intro es
  induction es with
  | nil => intro s h; exact h
  | cons e rest ih =>
    intro s h
    obtain ⟨sid', d'⟩ := e
    rw [runEntries_cons]
    by_cases heq : sid' = sid
    · subst heq
      rw [checkEntry_keeps (f sid') (g sid') s sid' d' hk]
      exact ih s h
    · exact ih _ (checkEntry_mem_of_ne (f sid') (g sid') s sid' d' h
        (fun hc => heq hc.symm))

theorem runEntries_removes (f : String → FeedResult) (g : String → Bool)
    {sid : String} (hr : removesSession (f sid)) :
    ∀ (es : List (String × SessionData)) (s : SessionMap),
      sid ∈ es.map Prod.fst → sid ∉ keysOf (runEntries f g es s).1 := by
  intro es
  induction es with
  | nil => intro s h; simp at h
  | cons e rest ih =>
    intro s h
    obtain ⟨sid', d'⟩ := e
    rw [runEntries_cons]
    by_cases heq : sid' = sid
    · subst heq
      rw [checkEntry_removes (f sid') (g sid') s sid' d' hr]
      exact runEntries_absent_keys f g rest _ (not_mem_keysOf_mapDelete s sid')
    · rw [List.map_cons, List.mem_cons] at h
      rcases h with h | h
      · exact absurd h.symm heq
      · exact ih _ h

theorem runEntries_log_mem (f : String → FeedResult) (g : String → Bool)
    (sid : String) (d : SessionData) :
    ∀ (es : List (String × SessionData)) (s : SessionMap),
      (es.map Prod.fst).Nodup → (sid, d) ∈ es →
      notifsFor sid (runEntries f g es s).2.notifs = entryNotifs (f sid) sid d ∧
      purchasesFor sid (runEntries f g es s).2.purchases = entryPurchases (f sid) sid d := by
  intro es
  induction es with
  | nil => intro s _ h; simp at h
  | cons e rest ih =>
    intro s hnd hmem
    obtain ⟨sid', d'⟩ := e
    rw [List.map_cons] at hnd
    have hhead : sid' ∉ rest.map Prod.fst := (List.nodup_cons.mp hnd).1
    rw [runEntries_cons]
    rcases List.mem_cons.mp hmem with heq | hmem'
    · have hsid : sid' = sid := (congrArg Prod.fst heq).symm
      have hd : d' = d := (congrArg Prod.snd heq).symm
      subst hsid; subst hd
      obtain ⟨tn, tp⟩ := runEntries_log_absent f g sid' rest _ hhead
      constructor
      · rw [checkEntry_notifs, notifsFor, List.filter_append]
        rw [show (entryNotifs (f sid') sid' d').filter (fun n => n.sessionId == sid') =
              notifsFor sid' (entryNotifs (f sid') sid' d') from rfl]
        rw [notifsFor_entry_self]
        rw [show ((runEntries f g rest (checkEntry (f sid') (g sid') s sid' d').1).2.notifs).filter
              (fun n => n.sessionId == sid') =
              notifsFor sid' (runEntries f g rest (checkEntry (f sid') (g sid') s sid' d').1).2.notifs
            from rfl]
        rw [tn, List.append_nil]
      · rw [checkEntry_purchases, purchasesFor, List.filter_append]
        rw [show (entryPurchases (f sid') sid' d').filter (fun p => p.sessionId == sid') =
              purchasesFor sid' (entryPurchases (f sid') sid' d') from rfl]
        rw [purchasesFor_entry_self]
        rw [show ((runEntries f g rest (checkEntry (f sid') (g sid') s sid' d').1).2.purchases).filter
              (fun p => p.sessionId == sid') =
              purchasesFor sid' (runEntries f g rest (checkEntry (f sid') (g sid') s sid' d').1).2.purchases
            from rfl]
        rw [tp, List.append_nil]
    · have hne : sid' ≠ sid := fun hc => by
        subst hc
        exact hhead (List.mem_map.mpr ⟨(sid', d), hmem', rfl⟩)
      obtain ⟨tn, tp⟩ := ih _ (List.nodup_cons.mp hnd).2 hmem'
      constructor
      · rw [checkEntry_notifs, notifsFor, List.filter_append]
        rw [show (entryNotifs (f sid') sid' d').filter (fun n => n.sessionId == sid) =
              notifsFor sid (entryNotifs (f sid') sid' d') from rfl]
        rw [notifsFor_entry_ne (f sid') d' hne]
        simpa [notifsFor] using tn
      · rw [checkEntry_purchases, purchasesFor, List.filter_append]
        rw [show (entryPurchases (f sid') sid' d').filter (fun p => p.sessionId == sid) =
              purchasesFor sid (entryPurchases (f sid') sid' d') from rfl]
        rw [purchasesFor_entry_ne (f sid') d' hne]
        simpa [purchasesFor] using tp

end FlipAgent

namespace FlipAgent

/-- Claim C6: if the task status never reaches a terminal state (no poll
reports `completed`/`success`/`failed`/`error`, and no transport error
carries a rethrow-matching message), `pollTaskStatus` performs exactly the
configured maximum of 120 attempts — one status request per attempt — and
then `purchaseProduct` fails with the `'Task timed out'` error rather than
polling indefinitely. -/
theorem purchase_polling_times_out_after_120_attempts
    (privateKey taskId : String) (userHandle : Option String)
    (responses : Nat → AxiosResult)
    (h : ∀ i, nonTerminalResp (responses i)) :
    (pollTaskStatus userHandle responses).1.length = 120 ∧
    (pollTaskStatus userHandle responses).2 = PollOutcome.timeout ∧
    (purchaseProduct (some privateKey) (CreateResult.okBody (some taskId))
        responses userHandle).1 = PurchaseOutcome.err "Task timed out" := by
  obtain ⟨hlen, hout⟩ := pollGo_all_nonterminal userHandle responses h maxAttempts 0 0
  refine ⟨hlen, hout, ?_⟩
  simp only [purchaseProduct, pollTaskStatus] at hout ⊢
  rw [hout]

/-- Witness for C6 at a transport that always answers `processing`. -/
theorem purchase_polling_times_out_witness :
    (∀ i, nonTerminalResp (respPending i)) ∧
    ((pollTaskStatus (some "user") respPending).1.length = 120 ∧
      (pollTaskStatus (some "user") respPending).2 = PollOutcome.timeout ∧
      (purchaseProduct (some "key") (CreateResult.okBody (some "t1"))
          respPending (some "user")).1 = PurchaseOutcome.err "Task timed out") :=
  have hh : ∀ i, nonTerminalResp (respPending i) := fun _ => by
    simp only [respPending, nonTerminalResp]
    refine ⟨?_, ?_, ?_, ?_⟩ <;> decide
  ⟨hh, purchase_polling_times_out_after_120_attempts "key" "t1" (some "user") respPending hh⟩

/-- Claim C2 (evidence of the code bug): a first poll whose body is
`current_status = "failed"` with `error_message = "Variant not found"` and a
populated progress list throws `Error("Variant not found")`, but the
`catch` of the loop rethrows only messages containing `'Task failed'`, so
the terminal failure is swallowed as a polling warning: the loop keeps
polling to the 120-attempt timeout and the caller receives `'Task timed
out'`, never the upstream message.  By contrast, when `error_message` is
absent the thrown message is exactly `'Task failed'` and polling does stop
on that same iteration. -/
theorem pollTaskStatus_swallows_failed_status_with_message :
    (pollTaskStatus (some "user") respFailedWithMsg).2 = PollOutcome.timeout ∧
    (pollTaskStatus (some "user") respFailedWithMsg).1.length = 120 ∧
    (purchaseProduct (some "key") (CreateResult.okBody (some "task"))
        respFailedWithMsg (some "user")).1 = PurchaseOutcome.err "Task timed out" ∧
    (pollTaskStatus (some "user") respFailedNoMsg).2 = PollOutcome.thrown "Task failed" ∧
    (pollTaskStatus (some "user") respFailedNoMsg).1.length = 1 :=
  ⟨rfl, rfl, rfl, rfl, rfl⟩

/-- Claim C7: across the polls of one task, each progress step is surfaced
exactly once and in order.  With `progress` growing `[]` → `[stepA]` →
`[stepA, stepB]` over three successive polls (then `completed`), stepA is
surfaced only on the second poll and stepB only on the third; no step is
re-announced, and each poll triggers at most the notification of its newly
appended step. -/
theorem pollTaskStatus_progress_steps_surfaced_once :
    ((pollTaskStatus (some "user") respProgressGrowth).1.map AttemptLog.surfaced =
      [[], ["Adding item to cart"], ["Proceeding to checkout"], []]) ∧
    ((pollTaskStatus (some "user") respProgressGrowth).1.map AttemptLog.notifs =
      [[], ["Found the item! Adding it to cart..."], ["Heading to checkout now..."],
        ["Success! Order placed. \"Check email for confirmation.\""]]) :=
  ⟨rfl, by decide⟩

end FlipAgent

namespace FlipAgent

/-! ## Tick-level lemmas (`checkSessions` and the multi-tick run) -/

theorem checkSessions_of_mem (f : String → FeedResult) (g : String → Bool)
    (st : MonitorState) {sid : String} {d : SessionData}
    (hmem : (sid, d) ∈ st.activeSessions) :
    checkSessions f g st =
      ({ st with activeSessions := (runEntries f g st.activeSessions st.activeSessions).1 },
        (runEntries f g st.activeSessions st.activeSessions).2) := by
  have he : st.activeSessions.isEmpty = false := by
    cases h : st.activeSessions with
    | nil => rw [h] at hmem; simp at hmem
    | cons a l => rfl
  simp [checkSessions, he]

theorem tick_log_mem (f : String → FeedResult) (g : String → Bool)
    (st : MonitorState) {sid : String} {d : SessionData}
    (hnd : (keysOf st.activeSessions).Nodup)
    (hmem : (sid, d) ∈ st.activeSessions) :
    notifsFor sid (checkSessions f g st).2.notifs = entryNotifs (f sid) sid d ∧
    purchasesFor sid (checkSessions f g st).2.purchases = entryPurchases (f sid) sid d := by
  rw [checkSessions_of_mem f g st hmem]
  exact runEntries_log_mem f g sid d st.activeSessions st.activeSessions hnd hmem

theorem tick_log_absent (f : String → FeedResult) (g : String → Bool)
    (st : MonitorState) {sid : String} (h : sid ∉ keysOf st.activeSessions) :
    notifsFor sid (checkSessions f g st).2.notifs = [] ∧
    purchasesFor sid (checkSessions f g st).2.purchases = [] := by
  cases he : st.activeSessions.isEmpty with
  | true => simp [checkSessions, he, notifsFor, purchasesFor]
  | false =>
    simp only [checkSessions, he, Bool.false_eq_true, if_false]
    exact runEntries_log_absent f g sid st.activeSessions st.activeSessions h

theorem tick_keeps (f : String → FeedResult) (g : String → Bool)
    (st : MonitorState) {sid : String} {d : SessionData}
    (hk : keepsSession (f sid)) (hmem : (sid, d) ∈ st.activeSessions) :
    (sid, d) ∈ (checkSessions f g st).1.activeSessions := by
  rw [checkSessions_of_mem f g st hmem]
  exact runEntries_keeps f g hk st.activeSessions st.activeSessions hmem

theorem tick_removes (f : String → FeedResult) (g : String → Bool)
    (st : MonitorState) {sid : String} {d : SessionData}
    (hr : removesSession (f sid)) (hmem : (sid, d) ∈ st.activeSessions) :
    sid ∉ keysOf (checkSessions f g st).1.activeSessions := by
  rw [checkSessions_of_mem f g st hmem]
  exact runEntries_removes f g hr st.activeSessions st.activeSessions
    (List.mem_map.mpr ⟨(sid, d), hmem, rfl⟩)

theorem tick_absent (f : String → FeedResult) (g : String → Bool)
    (st : MonitorState) {sid : String} (h : sid ∉ keysOf st.activeSessions) :
    sid ∉ keysOf (checkSessions f g st).1.activeSessions := by
  cases he : st.activeSessions.isEmpty with
  | true => simpa [checkSessions, he] using h
  | false =>
    simp only [checkSessions, he, Bool.false_eq_true, if_false]
    exact runEntries_absent_keys f g st.activeSessions st.activeSessions h

theorem tick_nodup (f : String → FeedResult) (g : String → Bool)
    (st : MonitorState) (h : (keysOf st.activeSessions).Nodup) :
    (keysOf (checkSessions f g st).1.activeSessions).Nodup := by
  cases he : st.activeSessions.isEmpty with
  | true => simpa [checkSessions, he] using h
  | false =>
    simp only [checkSessions, he, Bool.false_eq_true, if_false]
    exact h.sublist
      (keysOf_sublist_of_sublist
        (runEntries_sessions_sublist f g st.activeSessions st.activeSessions))

theorem tick_queries_mem (f : String → FeedResult) (g : String → Bool)
    (st : MonitorState) {sid : String} {d : SessionData}
    (hmem : (sid, d) ∈ st.activeSessions) :
    sid ∈ (checkSessions f g st).2.queries := by
  rw [checkSessions_of_mem f g st hmem]
  rw [show ({ st with activeSessions := (runEntries f g st.activeSessions st.activeSessions).1 },
        (runEntries f g st.activeSessions st.activeSessions).2).2 =
      (runEntries f g st.activeSessions st.activeSessions).2 from rfl]
  rw [runEntries_queries]
  exact List.mem_map.mpr ⟨(sid, d), hmem, rfl⟩

theorem entryPurchases_of_keeps (r : FeedResult) (sid : String) (d : SessionData)
    (h : keepsSession r) : entryPurchases r sid d = [] := by
  cases r with
  | ok o =>
    cases o with
    | none => rfl
    | some sd =>
      simp only [keepsSession] at h
      simp [entryPurchases, h]
  | httpError rs => rfl

theorem entryNotifs_of_keeps (r : FeedResult) (sid : String) (d : SessionData)
    (h : keepsSession r) : entryNotifs r sid d = [] := by
  cases r with
  | ok o =>
    cases o with
    | none => rfl
    | some sd =>
      simp only [keepsSession] at h
      simp [entryNotifs, h]
  | httpError rs => rfl

theorem stateAfter_nodup (feeds : Nat → String → FeedResult)
    (stopOks : Nat → String → Bool) (st : MonitorState)
    (h : (keysOf st.activeSessions).Nodup) :
    ∀ n, (keysOf (stateAfter feeds stopOks st n).activeSessions).Nodup := by
  intro n
  induction n with
  | zero => exact h
  | succ p ih => exact tick_nodup (feeds p) (stopOks p) _ ih

theorem stateAfter_absent_mono (feeds : Nat → String → FeedResult)
    (stopOks : Nat → String → Bool) (st : MonitorState) {sid : String} {m : Nat}
    (h : sid ∉ keysOf (stateAfter feeds stopOks st m).activeSessions) :
    ∀ n, m ≤ n → sid ∉ keysOf (stateAfter feeds stopOks st n).activeSessions := by
  intro n
  induction n with
  | zero => intro hn; exact Nat.le_zero.mp hn ▸ h
  | succ p ih =>
    intro hn
    rcases Nat.le_succ_iff.mp hn with hle | heq
    · exact tick_absent (feeds p) (stopOks p) _ (ih hle)
    · subst heq; exact h

end FlipAgent

namespace FlipAgent

/-- Claim C1: at-most-once trigger.  For a registered session `(sid, d)` whose
status queries keep it alive before tick `k` and report
`is_below_threshold = true` at tick `k`, the tick-`k` run of `checkSessions`
sends exactly one price-alert notification to the session's `userHandle`,
dispatches exactly one `shopifyAgent.purchaseProduct` call with that
session's `productUrl`, `size` and `userHandle`, and removes the session
from `activeSessions` — regardless of whether any upstream stop call
succeeds (`stopOks` is arbitrary, and the dispatched purchase's own outcome
has no channel back into the registry) — so the session is absent from the
registry on every later tick and no other tick ever dispatches a purchase
for it. -/
theorem monitor_at_most_once_trigger
    (feeds : Nat → String → FeedResult) (stopOks : Nat → String → Bool)
    (st : MonitorState) (sid : String) (d : SessionData) (k : Nat)
    (sd : FeedSessionData)
    (hnd : (keysOf st.activeSessions).Nodup)
    (hmem : (sid, d) ∈ st.activeSessions)
    (hkeep : ∀ j, j < k → keepsSession (feeds j sid))
    (htrig : feeds k sid = FeedResult.ok (some sd))
    (hbelow : sd.is_below_threshold = true) :
    notifsFor sid (logAt feeds stopOks st k).notifs =
      [⟨sid, d.userHandle, priceAlertMsg d sd⟩] ∧
    purchasesFor sid (logAt feeds stopOks st k).purchases =
      [⟨sid, d.productUrl, d.size, d.userHandle⟩] ∧
    (∀ m, k < m → sid ∉ keysOf (stateAfter feeds stopOks st m).activeSessions) ∧
    (∀ m, m ≠ k → purchasesFor sid (logAt feeds stopOks st m).purchases = []) := by
  have hpres : ∀ j, j ≤ k → (sid, d) ∈ (stateAfter feeds stopOks st j).activeSessions := by
    intro j
    induction j with
    | zero => intro _; exact hmem
    | succ p ih =>
      intro hle
      have hp : p < k := Nat.lt_of_succ_le hle
      exact tick_keeps (feeds p) (stopOks p) _ (hkeep p hp) (ih (Nat.le_of_lt hp))
  have hndAll := stateAfter_nodup feeds stopOks st hnd
  have hmemk := hpres k (Nat.le_refl k)
  have hlog := tick_log_mem (feeds k) (stopOks k) _ (hndAll k) hmemk
  have hrem : removesSession (feeds k sid) := by
    rw [htrig]; exact hbelow
  have habs1 : sid ∉ keysOf (stateAfter feeds stopOks st (k + 1)).activeSessions :=
    tick_removes (feeds k) (stopOks k) _ hrem hmemk
  refine ⟨?_, ?_, ?_, ?_⟩
  · rw [show logAt feeds stopOks st k =
        (checkSessions (feeds k) (stopOks k) (stateAfter feeds stopOks st k)).2 from rfl]
    rw [hlog.1, htrig]
    simp [entryNotifs, hbelow]
  · rw [show logAt feeds stopOks st k =
        (checkSessions (feeds k) (stopOks k) (stateAfter feeds stopOks st k)).2 from rfl]
    rw [hlog.2, htrig]
    simp [entryPurchases, hbelow]
  · intro m hm
    exact stateAfter_absent_mono feeds stopOks st habs1 m (Nat.succ_le_of_lt hm)
  · intro m hm
    rcases Nat.lt_or_ge m k with hlt | hge
    · have hlogm := tick_log_mem (feeds m) (stopOks m) _ (hndAll m) (hpres m (Nat.le_of_lt hlt))
      rw [show logAt feeds stopOks st m =
          (checkSessions (feeds m) (stopOks m) (stateAfter feeds stopOks st m)).2 from rfl]
      rw [hlogm.2]
      exact entryPurchases_of_keeps _ sid d (hkeep m hlt)
    · have hgt : k + 1 ≤ m := Nat.succ_le_of_lt (Nat.lt_of_le_of_ne hge (fun hc => hm hc.symm))
      have habsm := stateAfter_absent_mono feeds stopOks st habs1 m hgt
      exact (tick_log_absent (feeds m) (stopOks m) _ habsm).2

/-- Witness for C1: one session `"s1"`, a feed reporting the crossing from
tick 0 onwards, upstream stop calls that always fail. -/
theorem monitor_at_most_once_trigger_witness :
    ((keysOf stOne.activeSessions).Nodup ∧ ("s1", sessJacket) ∈ stOne.activeSessions ∧
      feedsAlwaysBelow 0 "s1" = FeedResult.ok (some sdBelow) ∧
      sdBelow.is_below_threshold = true) ∧
    (notifsFor "s1" (logAt feedsAlwaysBelow stopsAlwaysFail stOne 0).notifs =
        [⟨"s1", sessJacket.userHandle, priceAlertMsg sessJacket sdBelow⟩] ∧
      purchasesFor "s1" (logAt feedsAlwaysBelow stopsAlwaysFail stOne 0).purchases =
        [⟨"s1", sessJacket.productUrl, sessJacket.size, sessJacket.userHandle⟩] ∧
      (∀ m, 0 < m →
        "s1" ∉ keysOf (stateAfter feedsAlwaysBelow stopsAlwaysFail stOne m).activeSessions) ∧
      (∀ m, m ≠ 0 →
        purchasesFor "s1" (logAt feedsAlwaysBelow stopsAlwaysFail stOne m).purchases = [])) :=
  ⟨⟨by decide, by decide, rfl, rfl⟩,
    monitor_at_most_once_trigger feedsAlwaysBelow stopsAlwaysFail stOne "s1" sessJacket 0
      sdBelow (by decide) (by decide) (fun j hj => absurd hj (Nat.not_lt_zero j)) rfl rfl⟩

/-- Claim C8: stale cleanup.  If a session's status query fails with HTTP 404,
`checkSessions` removes it from `activeSessions` without sending any
notification and without dispatching any purchase for it; if the query
fails for any other reason (any non-404 status, or a pure network error
with no response), the session stays registered with unchanged data, this
tick produces no notification or purchase for it, and the next tick queries
it again. -/
theorem monitor_stale_cleanup_on_404
    (f : String → FeedResult) (g : String → Bool) (st : MonitorState)
    (sid : String) (d : SessionData)
    (hnd : (keysOf st.activeSessions).Nodup)
    (hmem : (sid, d) ∈ st.activeSessions) :
    (f sid = FeedResult.httpError (some 404) →
      sid ∉ keysOf (checkSessions f g st).1.activeSessions ∧
      notifsFor sid (checkSessions f g st).2.notifs = [] ∧
      purchasesFor sid (checkSessions f g st).2.purchases = []) ∧
    (∀ respStatus, respStatus ≠ some 404 → f sid = FeedResult.httpError respStatus →
      (sid, d) ∈ (checkSessions f g st).1.activeSessions ∧
      notifsFor sid (checkSessions f g st).2.notifs = [] ∧
      purchasesFor sid (checkSessions f g st).2.purchases = [] ∧
      ∀ (f2 : String → FeedResult) (g2 : String → Bool),
        sid ∈ (checkSessions f2 g2 (checkSessions f g st).1).2.queries) := by
  have hlog := tick_log_mem f g st hnd hmem
  constructor
  · intro h404
    have hrem : removesSession (f sid) := by rw [h404]; rfl
    refine ⟨tick_removes f g st hrem hmem, ?_, ?_⟩
    · rw [hlog.1, h404]; rfl
    · rw [hlog.2, h404]; rfl
  · intro respStatus hne hresp
    have hk : keepsSession (f sid) := by rw [hresp]; exact hne
    have hmem' := tick_keeps f g st hk hmem
    refine ⟨hmem', ?_, ?_, ?_⟩
    · rw [hlog.1]; exact entryNotifs_of_keeps _ sid d hk
    · rw [hlog.2]; exact entryPurchases_of_keeps _ sid d hk
    · intro f2 g2
      exact tick_queries_mem f2 g2 _ hmem'

/-- Witness for C8, exercising the non-404 branch with HTTP 500 and the
404 branch with a second concrete feed. -/
theorem monitor_stale_cleanup_witness :
    ((keysOf stOne.activeSessions).Nodup ∧ ("s1", sessJacket) ∈ stOne.activeSessions) ∧
    ((feed404 "s1" = FeedResult.httpError (some 404) →
        "s1" ∉ keysOf (checkSessions feed404 (fun _ => true) stOne).1.activeSessions ∧
        notifsFor "s1" (checkSessions feed404 (fun _ => true) stOne).2.notifs = [] ∧
        purchasesFor "s1" (checkSessions feed404 (fun _ => true) stOne).2.purchases = []) ∧
      (∀ respStatus, respStatus ≠ some 404 →
        feed404 "s1" = FeedResult.httpError respStatus →
        ("s1", sessJacket) ∈ (checkSessions feed404 (fun _ => true) stOne).1.activeSessions ∧
        notifsFor "s1" (checkSessions feed404 (fun _ => true) stOne).2.notifs = [] ∧
        purchasesFor "s1" (checkSessions feed404 (fun _ => true) stOne).2.purchases = [] ∧
        ∀ (f2 : String → FeedResult) (g2 : String → Bool),
          "s1" ∈ (checkSessions f2 g2 (checkSessions feed404 (fun _ => true) stOne).1).2.queries)) :=
  ⟨⟨by decide, by decide⟩,
    monitor_stale_cleanup_on_404 feed404 (fun _ => true) stOne "s1" sessJacket
      (by decide) (by decide)⟩

/-- Claim C10: a successful status query whose body has no `data` object
leaves the session registered with unchanged data; for that session the
tick sends no notification, dispatches no purchase and performs no removal,
and the next tick queries the session again. -/
theorem monitor_no_data_keeps_session
    (f : String → FeedResult) (g : String → Bool) (st : MonitorState)
    (sid : String) (d : SessionData)
    (hnd : (keysOf st.activeSessions).Nodup)
    (hmem : (sid, d) ∈ st.activeSessions)
    (hnodata : f sid = FeedResult.ok none) :
    (sid, d) ∈ (checkSessions f g st).1.activeSessions ∧
    notifsFor sid (checkSessions f g st).2.notifs = [] ∧
    purchasesFor sid (checkSessions f g st).2.purchases = [] ∧
    ∀ (f2 : String → FeedResult) (g2 : String → Bool),
      sid ∈ (checkSessions f2 g2 (checkSessions f g st).1).2.queries := by
  have hk : keepsSession (f sid) := by rw [hnodata]; trivial
  have hlog := tick_log_mem f g st hnd hmem
  have hmem' := tick_keeps f g st hk hmem
  refine ⟨hmem', ?_, ?_, ?_⟩
  · rw [hlog.1]; exact entryNotifs_of_keeps _ sid d hk
  · rw [hlog.2]; exact entryPurchases_of_keeps _ sid d hk
  · intro f2 g2
    exact tick_queries_mem f2 g2 _ hmem'

/-- Witness for C10 at a feed answering `{ data: undefined }`. -/
theorem monitor_no_data_keeps_session_witness :
    ((keysOf stOne.activeSessions).Nodup ∧ ("s1", sessJacket) ∈ stOne.activeSessions ∧
      feedNoData "s1" = FeedResult.ok none) ∧
    (("s1", sessJacket) ∈ (checkSessions feedNoData (fun _ => true) stOne).1.activeSessions ∧
      notifsFor "s1" (checkSessions feedNoData (fun _ => true) stOne).2.notifs = [] ∧
      purchasesFor "s1" (checkSessions feedNoData (fun _ => true) stOne).2.purchases = [] ∧
      ∀ (f2 : String → FeedResult) (g2 : String → Bool),
        "s1" ∈ (checkSessions f2 g2 (checkSessions feedNoData (fun _ => true) stOne).1).2.queries) :=
  ⟨⟨by decide, by decide, rfl⟩,
    monitor_no_data_keeps_session feedNoData (fun _ => true) stOne "s1" sessJacket
      (by decide) (by decide) rfl⟩

end FlipAgent

namespace FlipAgent

theorem startPolling_activeSessions (st : MonitorState) :
    (startPolling st).activeSessions = st.activeSessions := by
  by_cases hp : st.isPolling <;> simp [startPolling, hp]

theorem mapSet_mem (m : SessionMap) (k : String) (v : SessionData) :
    (k, v) ∈ mapSet m k v := by
  unfold mapSet
  split
  · next hany =>
    obtain ⟨e, he, hk⟩ := List.any_eq_true.mp hany
    refine List.mem_map.mpr ⟨e, he, ?_⟩
    simp [hk]
  · exact List.mem_append.mpr (Or.inr (List.mem_singleton.mpr rfl))

/-- Claim C9: the operation `startPolling` is idempotent.  Iterating it `n ≥ 1` times from
any state produces exactly the state one call produces, and the total
number of interval timers ever created grows by one when the loop was not
yet running and by zero when it was — never by two — so a single shared
timer drives all session checks no matter how often the loop start is
requested. -/
theorem startPolling_idempotent (st : MonitorState) (n : Nat) (h : 1 ≤ n) :
    startPolling^[n] st = startPolling st ∧
    (startPolling^[n] st).timersCreated =
      st.timersCreated + (if st.isPolling then 0 else 1) := by
  have key : startPolling (startPolling st) = startPolling st := by
    by_cases hp : st.isPolling <;> simp [startPolling, hp]
  have iter : ∀ m, startPolling^[m + 1] st = startPolling st := by
    intro m
    induction m with
    | zero => simp
    | succ p ih => rw [Function.iterate_succ_apply', ih, key]
  obtain ⟨m, rfl⟩ : ∃ m, n = m + 1 := ⟨n - 1, (Nat.succ_pred_eq_of_pos h).symm⟩
  refine ⟨iter m, ?_⟩
  rw [iter m]
  by_cases hp : st.isPolling <;> simp [startPolling, hp]

/-- Witness for C9: three consecutive loop-start calls on a fresh monitor
create exactly one timer. -/
theorem startPolling_idempotent_witness :
    1 ≤ 3 ∧
    (startPolling^[3] stEmpty = startPolling stEmpty ∧
      (startPolling^[3] stEmpty).timersCreated =
        stEmpty.timersCreated + (if stEmpty.isPolling then 0 else 1)) :=
  ⟨by decide, startPolling_idempotent stEmpty 3 (by decide)⟩

/-- Claim C5: if PriceFeed registration fails, or its response carries no
`session_id`, `startMonitoring` rethrows and the monitor state is entirely
unchanged: no session is stored in `activeSessions` and the polling loop is
not started by that call. -/
theorem startMonitoring_failure_no_session
    (st : MonitorState) (symbol : String) (threshold : JSNumber)
    (userHandle productUrl size : String) (reg : RegResult)
    (h : (∃ m, reg = RegResult.err m) ∨ reg = RegResult.ok none) :
    (startMonitoring st symbol threshold userHandle productUrl size reg).2.1 = st ∧
    ∃ e, (startMonitoring st symbol threshold userHandle productUrl size reg).2.2 =
      Except.error e := by
  rcases h with ⟨m, rfl⟩ | rfl
  · exact ⟨rfl, m, rfl⟩
  · exact ⟨rfl, "Failed to get session_id from monitoring API", rfl⟩

/-- Witness for C5 at a registration request that throws. -/
theorem startMonitoring_failure_witness :
    ((∃ m, RegResult.err "network down" = RegResult.err m) ∨
      RegResult.err "network down" = RegResult.ok none) ∧
    ((startMonitoring stEmpty "ETH/USD" (JSNumber.num 2500) "+15551234567"
        "https://shop.example/jacket" "Medium" (RegResult.err "network down")).2.1 = stEmpty ∧
      ∃ e, (startMonitoring stEmpty "ETH/USD" (JSNumber.num 2500) "+15551234567"
        "https://shop.example/jacket" "Medium" (RegResult.err "network down")).2.2 =
          Except.error e) :=
  ⟨Or.inl ⟨"network down", rfl⟩,
    startMonitoring_failure_no_session stEmpty "ETH/USD" (JSNumber.num 2500) "+15551234567"
      "https://shop.example/jacket" "Medium" (RegResult.err "network down")
      (Or.inl ⟨"network down", rfl⟩)⟩

/-- Claim C3, counterexample: called with the non-finite threshold `NaN`,
`startMonitoring` still sends the registration request and, the
registration having succeeded, stores the session (threshold `NaN`
included) and returns the new session id — contradicting the claim that a
non-finite threshold fails before any request is sent and before any
session is stored. -/
theorem startMonitoring_nan_counterexample :
    JSNumber.nan.isFinite = false ∧
    (startMonitoring stEmpty "ETH/USD" JSNumber.nan "user" "https://shop.example/x" "M"
        (RegResult.ok (some "s9"))).1 = true ∧
    (startMonitoring stEmpty "ETH/USD" JSNumber.nan "user" "https://shop.example/x" "M"
        (RegResult.ok (some "s9"))).2.1.activeSessions =
      [("s9", ⟨"user", "https://shop.example/x", "M", "ETH/USD", JSNumber.nan⟩)] ∧
    (startMonitoring stEmpty "ETH/USD" JSNumber.nan "user" "https://shop.example/x" "M"
        (RegResult.ok (some "s9"))).2.2 = Except.ok "s9" := by
  refine ⟨rfl, rfl, ?_, rfl⟩
  decide

/-- Claim C3, amended: the function `startMonitoring` performs no finiteness validation of
`threshold`.  For every threshold value — finite or not — it sends the
registration request, and whenever the registration response carries a
`session_id` it stores the session under that id with the given (possibly
non-finite) threshold. -/
theorem startMonitoring_no_threshold_validation
    (st : MonitorState) (symbol : String) (threshold : JSNumber)
    (userHandle productUrl size : String) (reg : RegResult) :
    (startMonitoring st symbol threshold userHandle productUrl size reg).1 = true ∧
    (∀ sid, reg = RegResult.ok (some sid) →
      (sid, ⟨userHandle, productUrl, size, symbol, threshold⟩) ∈
        (startMonitoring st symbol threshold userHandle productUrl size reg).2.1.activeSessions) := by
  constructor
  · cases reg with
    | err m => rfl
    | ok o => cases o <;> rfl
  · rintro sid rfl
    rw [show (startMonitoring st symbol threshold userHandle productUrl size
          (RegResult.ok (some sid))).2.1 =
        startPolling { st with
          activeSessions := mapSet st.activeSessions sid
            ⟨userHandle, productUrl, size, symbol, threshold⟩ } from rfl]
    rw [startPolling_activeSessions]
    exact mapSet_mem st.activeSessions sid _

/-- Witness for C3's amended theorem: `NaN` threshold, registration
succeeding with id `"s2"`. -/
theorem startMonitoring_no_threshold_validation_witness :
    ((startMonitoring stEmpty "BTC/USD" JSNumber.nan "user2" "https://shop.example/y" "L"
        (RegResult.ok (some "s2"))).1 = true ∧
      (∀ sid, RegResult.ok (some "s2") = RegResult.ok (some sid) →
        (sid, ⟨"user2", "https://shop.example/y", "L", "BTC/USD", JSNumber.nan⟩) ∈
          (startMonitoring stEmpty "BTC/USD" JSNumber.nan "user2" "https://shop.example/y" "L"
            (RegResult.ok (some "s2"))).2.1.activeSessions)) :=
  startMonitoring_no_threshold_validation stEmpty "BTC/USD" JSNumber.nan "user2"
    "https://shop.example/y" "L" (RegResult.ok (some "s2"))

end FlipAgent
